import Mathlib

/-!
Shallow embedding of `swaglyrics_backend/issue_maker.py`.

Strings are modelled as `List Char`; the `unsupported.txt` file is a
`List Char` (the full file content).  External HTTP collaborators (Spotify
search, GitHub issue creation, token endpoints) are modelled by passing
their responses as explicit oracle arguments.  Time is modelled at whole
second granularity as `Int` (the Python code compares `time.time()` floats;
all margins in the code are whole seconds).
-/

namespace IssueMaker

/-- Python's `'\x7bneedle\x7d' in hay` substring test, needle first. -/
def strContains (needle : List Char) : List Char → Bool
  | [] => needle.isEmpty
  | c :: t => needle.isPrefixOf (c :: t) || strContains needle t

/-- The separator written between song and artist, `" by "`. -/
def byStr : List Char := (" by ").data

/-- The text `f'\x7bsong\x7d by \x7bartist\x7d'` (no trailing newline), used by the
`/unsupported` route's membership test. -/
def pairStr (song artist : List Char) : List Char := song ++ byStr ++ artist

/-- The ledger line `f'\x7bsong\x7d by \x7bartist\x7d\n'` written by the append in `update`
and compared against by `del_line`. -/
def pairLine (song artist : List Char) : List Char := pairStr song artist ++ [('\n' : Char)]

/-- Python `f.readlines()`: split the file content after every newline,
keeping the newline on each line; a trailing fragment without a newline is a
final line. `acc` holds the current (reversed) partial line. -/
def readlinesAux : List Char → List Char → List (List Char)
  | acc, [] => if acc.isEmpty then [] else [acc.reverse]
  | acc, c :: cs =>
    if c = '\n' then (acc.reverse ++ [('\n' : Char)]) :: readlinesAux [] cs
    else readlinesAux (c :: acc) cs

def readlines (content : List Char) : List (List Char) := readlinesAux [] content

/-- `del_line` from `issue_maker.py`: read all lines, rewrite the file keeping
every line that is not exactly `f"\x7bsong\x7d by \x7bartist\x7d\n"`, return the new file
content and how many lines were dropped. -/
def del_line (store song artist : List Char) : List Char × Nat :=
  (((readlines store).filter (fun l => l ≠ pairLine song artist)).flatten,
    (readlines store).countP (fun l => l = pairLine song artist))

/-- The `/unsupported` route's ledger membership test:
`f'\x7bsong\x7d by \x7bartist\x7d' in data` — a substring test against the whole file. -/
def ledger_contains (store song artist : List Char) : Bool :=
  strContains (pairStr song artist) store

/-- ASCII whitespace, the ASCII fragment of Python's regex class `\s` and of
`str.split()` / `str.isspace()`. -/
def isPySpace (c : Char) : Bool :=
  c = ' ' || c = '\t' || c = '\n' || c = '\r' || c = '\x0b' || c = '\x0c'

/-- Python string `<`: lexicographic comparison by code point, shorter strings
sort first on a tie.  Used by `version < '1.1.1'` in `update`. -/
def pyStrLt : List Char → List Char → Bool
  | [], [] => false
  | [], _ :: _ => true
  | _ :: _, [] => false
  | a :: as, b :: bs => if a < b then true else if b < a then false else pyStrLt as bs

/-- The minimum supported client version `'1.1.1'` from the `update` route. -/
def floorVersion : List Char := ("1.1.1").data

/-- `re.fullmatch(asrg, s)` with `asrg = r'[A-Za-z\s]+'`: the whole string is
nonempty and made of ASCII letters and whitespace (modelling `\s` on its
ASCII fragment). -/
def isTrivial (s : List Char) : Bool :=
  !s.isEmpty && s.all (fun c => c.isAlpha || isPySpace c)

/-- The fields of the GitHub response to the issue-creation POST that
`create_issue` reads: the HTTP status code and the JSON body's `html_url`
field (`none` when the body has no such key, as in GitHub error bodies). -/
structure IssueResponse where
  status_code : Nat
  body_html_url : Option (List Char)
deriving DecidableEq, Repr

/-- `create_issue` from `issue_maker.py`.  The request construction (title
`f"\x7bsong\x7d by \x7bartist\x7d unsupported."`, body, labels) is outbound I/O; the
provider's response is the oracle argument.  The function unconditionally
reads `r.json()['html_url']`, so a body without that key raises `KeyError`,
modelled as `none`. -/
def create_issue (resp : IssueResponse) : Option (Nat × List Char) :=
  match resp.body_html_url with
  | some link => some (resp.status_code, link)
  | none => none

/-- The distinct return messages of the `/unsupported` route body. -/
inductive Outcome
  | updatePrompt
  | alreadyExists
  | mayNotExist
  | issueCreated (link : List Char)
  | loggedInternally
  | fishy
deriving DecidableEq, Repr

/-- Result of one `/unsupported` request: the HTTP response body (`none` when
an uncaught exception escapes the route), the resulting `unsupported.txt`
content, and whether the issue-creation POST was sent. -/
structure UpdateResult where
  outcome : Option Outcome
  store : List Char
  issueAttempted : Bool
deriving DecidableEq, Repr

/-- The `update` function behind `POST /unsupported` (the resolver).  `store`
is the current `unsupported.txt` content; `songLegit` is the boolean result
of `check_song` (the Spotify legitimacy oracle); `resp` is the GitHub
response oracle consumed by `create_issue` if reached.  The `version` form
field is modelled as present (its `KeyError` branch returns the update
prompt without reading anything else). -/
def update (song artist version store : List Char) (songLegit : Bool)
    (resp : IssueResponse) : UpdateResult :=
  if pyStrLt version floorVersion then ⟨some .updatePrompt, store, false⟩
  else if ledger_contains store song artist then ⟨some .alreadyExists, store, false⟩
  else if isTrivial song && isTrivial artist then ⟨some .mayNotExist, store, false⟩
  else if songLegit then
    let store1 := store ++ pairLine song artist
    match create_issue resp with
    | none => ⟨none, store1, true⟩
    | some (code, link) =>
      if code = 201 then ⟨some (.issueCreated link), store1, true⟩
      else ⟨some .loggedInternally, store1, true⟩
  else ⟨some .fishy, store, false⟩

/-- `s.lower()` on the ASCII fragment. -/
def pyLower (s : List Char) : List Char := s.map Char.toLower

/-- `re.sub(alg, '', s)` with `alg = r'[^\sa-zA-Z0-9]+'`: drop every character
that is not an ASCII letter, digit or whitespace. -/
def stripNonAlnum (s : List Char) : List Char :=
  s.filter (fun c => c.isAlphanum || isPySpace c)

/-- Python `s.split()` (no argument): split on runs of whitespace, dropping
empty pieces.  `acc` holds the current (reversed) word. -/
def pySplitAux : List Char → List Char → List (List Char)
  | acc, [] => if acc.isEmpty then [] else [acc.reverse]
  | acc, c :: cs =>
    if isPySpace c then
      if acc.isEmpty then pySplitAux [] cs else acc.reverse :: pySplitAux [] cs
    else pySplitAux (c :: acc) cs

def pySplit (s : List Char) : List (List Char) := pySplitAux [] s

/-- The loop of `is_title_mismatched`: `err_cnt` is incremented on each query
word whose lowercase form is not a substring of the lowercase candidate
title, returning `true` as soon as `err_cnt` exceeds `max_err`. -/
def mismatchGo (max_err : Nat) (full_title : List Char) :
    List (List Char) → Nat → Bool
  | [], _ => false
  | w :: ws, err_cnt =>
    if strContains (pyLower w) (pyLower full_title) then
      mismatchGo max_err full_title ws err_cnt
    else if err_cnt + 1 > max_err then true
    else mismatchGo max_err full_title ws (err_cnt + 1)

/-- `is_title_mismatched(words, full_title, max_err)` from `issue_maker.py`. -/
def is_title_mismatched (words : List (List Char)) (full_title : List Char)
    (max_err : Nat) : Bool :=
  mismatchGo max_err full_title words 0

/-- The query words computed by `genius_stripper`:
`re.sub(alg, '', f'\x7bsong\x7d by \x7bartist\x7d').split()`. -/
def genius_words (song artist : List Char) : List (List Char) :=
  pySplit (stripNonAlnum (pairStr song artist))

/-- `max_err = len(words) // 2` from `genius_stripper`. -/
def genius_max_err (song artist : List Char) : Nat :=
  (genius_words song artist).length / 2

/-- Value of an ASCII digit. -/
def digitVal (c : Char) : Option Nat :=
  if c.isDigit then some (c.toNat - 48) else none

/-- Two mandatory digits. -/
def parse2 : List Char → Option (Nat × List Char)
  | a :: b :: rest => do
    let x ← digitVal a
    let y ← digitVal b
    some (10 * x + y, rest)
  | _ => none

/-- Four mandatory digits (`%Y`). -/
def parse4 (s : List Char) : Option (Nat × List Char) := do
  let (hi, r) ← parse2 s
  let (lo, r2) ← parse2 r
  some (100 * hi + lo, r2)

/-- One or two digits, greedily (`%m`, `%d`, `%H`, `%M`, `%S`; in the format
each is followed by a non-digit literal, so greedy matching agrees with the
regex alternation `strptime` uses). -/
def parse1or2 : List Char → Option (Nat × List Char)
  | [] => none
  | [a] => do
    let x ← digitVal a
    some (x, ([] : List Char))
  | a :: b :: rest =>
    match digitVal a, digitVal b with
    | some x, some y => some (10 * x + y, rest)
    | some x, none => some (x, b :: rest)
    | none, _ => none

def expectChar (c : Char) : List Char → Option (List Char)
  | x :: rest => if x = c then some rest else none
  | [] => none

def isLeap (y : Nat) : Bool := (y % 4 = 0 && y % 100 ≠ 0) || y % 400 = 0

def daysInMonth (y m : Nat) : Nat :=
  if m = 2 then (if isLeap y then 29 else 28)
  else if m = 4 ∨ m = 6 ∨ m = 9 ∨ m = 11 then 30
  else 31

/-- Days since the Unix epoch of a civil date (proleptic Gregorian),
Hinnant's `days_from_civil` as used by the C and Python time stacks. -/
def daysFromCivil (y m d : Nat) : Int :=
  let yp := if m ≤ 2 then y - 1 else y
  let era := yp / 400
  let yoe := yp % 400
  let mp := (m + 9) % 12
  let doy := (153 * mp + 2) / 5 + d - 1
  let doe := yoe * 365 + yoe / 4 - yoe / 100 + doy
  ((era * 146097 + doe : Nat) : Int) - 719468

def dropColon : List Char → List Char
  | ':' :: r => r
  | r => r

/-- The `%z` directive: `Z`, or a sign, two hour digits, optional colon, two
minute digits, then optional seconds (fractional offsets, which GitHub never
sends, are not modelled).  The whole remainder must be consumed, and the
offset must be a valid sub-day timedelta. -/
def tzOffsetSeconds : List Char → Option Int
  | ['Z'] => some 0
  | c :: rest =>
    if c = '+' || c = '-' then
      (do
        let (h, r1) ← parse2 rest
        let (m, r2) ← parse2 (dropColon r1)
        let (s, r3) ←
          match r2 with
          | [] => some (0, ([] : List Char))
          | r => parse2 (dropColon r)
        if r3 = [] ∧ h ≤ 23 ∧ m ≤ 59 ∧ s ≤ 59 then
          let mag : Int := h * 3600 + m * 60 + s
          some (if c = '-' then -mag else mag)
        else none)
    else none
  | [] => none

/-- `datetime.strptime(s, "%Y-%m-%dT%H:%M:%S%z").timestamp()` as used by
`get_github_token` on the provider's `expires_at`: parse the aware ISO-8601
timestamp and convert it to whole seconds since the Unix epoch, validating
field ranges exactly as `strptime`/`datetime` do. -/
def strptimeIsoZ (str : List Char) : Option Int := do
  let (y, r1) ← parse4 str
  let r2 ← expectChar '-' r1
  let (mo, r3) ← parse1or2 r2
  let r4 ← expectChar '-' r3
  let (d, r5) ← parse1or2 r4
  let r6 ← expectChar 'T' r5
  let (h, r7) ← parse1or2 r6
  let r8 ← expectChar ':' r7
  let (mi, r9) ← parse1or2 r8
  let r10 ← expectChar ':' r9
  let (sec, r11) ← parse1or2 r10
  let off ← tzOffsetSeconds r11
  if 1 ≤ y ∧ 1 ≤ mo ∧ mo ≤ 12 ∧ 1 ≤ d ∧ d ≤ daysInMonth y mo ∧
      h ≤ 23 ∧ mi ≤ 59 ∧ sec ≤ 59 then
    some (daysFromCivil y mo d * 86400 + (h : Int) * 3600 + (mi : Int) * 60 + (sec : Int) - off)
  else none

/-- Result of one `get_github_token` call: the returned token (`none` when an
exception escapes, e.g. `ValueError` from a malformed `expires_at`), the
global `gh_token` / `gh_token_expiry` afterwards, and whether a refresh
round-trip was performed. -/
structure GithubTokenResult where
  result : Option (List Char)
  token : List Char
  expiry : Int
  refreshed : Bool
deriving DecidableEq, Repr

/-- `get_github_token` from `issue_maker.py`.  `tok`/`expiry` are the global
`gh_token`/`gh_token_expiry`; `respToken`/`respExpiresAt` are the fields of
the installation-token exchange response.  On refresh the code assigns
`gh_token` before parsing `expires_at`, so a parse failure leaves the token
overwritten but the expiry unchanged. -/
def get_github_token (now : Int) (tok : List Char) (expiry : Int)
    (respToken respExpiresAt : List Char) : GithubTokenResult :=
  if expiry - 180 > now then ⟨some tok, tok, expiry, false⟩
  else
    match strptimeIsoZ respExpiresAt with
    | some e => ⟨some respToken, respToken, e, true⟩
    | none => ⟨none, respToken, expiry, true⟩

/-- Result of one `get_spotify_token` call: returned token, the global
`spotify_token` / `spotify_token_expiry` afterwards, and whether a refresh
round-trip was performed. -/
structure SpotifyTokenResult where
  result : List Char
  token : List Char
  expiry : Int
  refreshed : Bool
deriving DecidableEq, Repr

/-- `get_spotify_token` from `issue_maker.py`: cached return inside the
5-minute buffer, otherwise a client-credentials exchange whose expiry is set
locally to one hour after the refresh instant. -/
def get_spotify_token (now : Int) (tok : List Char) (expiry : Int)
    (respAccessToken : List Char) : SpotifyTokenResult :=
  if expiry - 300 > now then ⟨tok, tok, expiry, false⟩
  else ⟨respAccessToken, respAccessToken, now + 3600, true⟩

/-- All decompositions `cs = pre ++ sep ++ post`, as `(pre, post)` pairs in
order of increasing `pre` length.  `acc` is the reversed prefix read so far. -/
def splitsOnAux (sep : List Char) : List Char → List Char → List (List Char × List Char)
  | acc, [] => if sep.isPrefixOf ([] : List Char) then [(acc.reverse, [])] else []
  | acc, c :: cs =>
    (if sep.isPrefixOf (c :: cs) then [(acc.reverse, (c :: cs).drop sep.length)] else []) ++
    splitsOnAux sep (c :: acc) cs

def splitsOn (sep cs : List Char) : List (List Char × List Char) :=
  splitsOnAux sep [] cs

/-- A group matched by `.+` may not contain a newline. -/
def dotOk (g : List Char) : Bool := g.all (fun c => c ≠ '\n')

/-- Greedy match of the tail `(.+) unsupported.` of the webhook pattern
against `rest`: the longest nonempty newline-free `g2` followed by the
literal `" unsupported"` and one more non-newline character (`re.match` does
not anchor the end, so trailing text is allowed). -/
def wdtTail (rest : List Char) : Option (List Char) :=
  let cands := (splitsOn (" unsupported").data rest).filter
    (fun p => !p.1.isEmpty && dotOk p.1 &&
      (match p.2 with | c :: _ => c ≠ '\n' | [] => false))
  cands.reverse.head?.map (fun p => p.1)

def wdtPick : List (List Char × List Char) → Option (List Char × List Char)
  | [] => none
  | (g1, rest) :: more =>
    match wdtTail rest with
    | some g2 => some (g1, g2)
    | none => wdtPick more

/-- `wdt.match(title)` with `wdt = re.compile(r'(.+) by (.+) unsupported.')`:
backtracking tries the longest `g1` first (greedy `.+`), and for each `g1`
the longest `g2`; returns the two captured groups, or `none` when the title
does not match. -/
def wdtMatch (title : List Char) : Option (List Char × List Char) :=
  wdtPick (((splitsOn (" by ").data title).filter
    (fun p => !p.1.isEmpty && dotOk p.1)).reverse)

/-- The distinct responses of the `/issue_closed` route; `exn` marks an
uncaught exception escaping the handler. -/
inductive WebhookOutcome
  | pong
  | notRelevant
  | deleted (cnt : Nat)
  | wrongEventType
  | exn
deriving DecidableEq, Repr

/-- `github_webhook` behind `POST /issue_closed`.  `event` is the
`X-GitHub-Event` header; `labels` the issue's label names (the `except
IndexError` branch catches an empty list); `repo`, `action` and `title` the
payload fields read by the handler; `store` the `unsupported.txt` content.
Returns the response and the resulting store.  On a qualifying event whose
title does not match `wdt`, `wdt.match` returns `None` and `.group(1)`
raises `AttributeError`, which nothing catches. -/
def github_webhook (event : List Char) (labels : List (List Char))
    (repo action title store : List Char) : WebhookOutcome × List Char :=
  if event = ("ping").data then (.pong, store)
  else if event = ("issues").data then
    match labels with
    | [] => (.notRelevant, store)
    | label :: _ =>
      if action = ("closed").data ∧ label = ("unsupported song").data ∧
          repo = ("SwagLyrics-For-Spotify").data then
        match wdtMatch title with
        | none => (.exn, store)
        | some (song, artist) =>
          let r := del_line store song artist
          (.deleted r.2, r.1)
      else (.notRelevant, store)
  else (.wrongEventType, store)

/-- Per-thread control points of one `get_spotify_token` call: `start`
(about to read and test `spotify_token_expiry`), `refreshing` (the POST to
the token endpoint has fired, the assignments at lines 121–123 are still
pending) and `done`. -/
inductive SpPC
  | start
  | refreshing
  | done
deriving DecidableEq, Repr

/-- The shared globals `spotify_token` / `spotify_token_expiry`, plus an
instrumentation counter of refresh POSTs fired. -/
structure SpShared where
  token : List Char
  expiry : Int
  refreshCount : Nat
deriving DecidableEq, Repr

/-- One atomic step of a thread running `get_spotify_token` (the expiry test
at line 116, and the write-back at lines 121–123; the POST between them can
interleave with other threads — the code takes no lock). -/
def sp_thread_step (now : Int) (resp : List Char) :
    SpPC → SpShared → SpPC × SpShared
  | .start, s =>
    if s.expiry - 300 > now then (.done, s)
    else (.refreshing, { s with refreshCount := s.refreshCount + 1 })
  | .refreshing, s => (.done, { s with token := resp, expiry := now + 3600 })
  | .done, s => (.done, s)

/-- Run two threads, each executing `get_spotify_token`, under a schedule
(`false` steps thread 0, `true` steps thread 1). -/
def sp_run (now : Int) (resp : List Char) :
    List Bool → SpPC × SpPC × SpShared → SpPC × SpPC × SpShared
  | [], st => st
  | i :: sched, (p0, p1, s) =>
    if i then
      let r := sp_thread_step now resp p1 s
      sp_run now resp sched (p0, r.1, r.2)
    else
      let r := sp_thread_step now resp p0 s
      sp_run now resp sched (r.1, p1, r.2)

/-- Whether the content ends with a newline (so appended text starts a fresh
line). -/
def endsNl : List Char → Bool
  | [] => false
  | [c] => c = '\n'
  | _ :: c :: cs => endsNl (c :: cs)

theorem readlinesAux_flatten :
    ∀ (cs acc : List Char), (readlinesAux acc cs).flatten = acc.reverse ++ cs := by
  intro cs
  induction cs with
  | nil =>
    intro acc
    by_cases h : acc.isEmpty
    · simp_all [readlinesAux, List.isEmpty_iff]
    · simp [readlinesAux, h]
  | cons c t ih =>
    intro acc
    by_cases hc : c = '\n'
    · subst hc
      simp [readlinesAux, ih]
    · simpa [readlinesAux, hc] using ih (c :: acc)

theorem readlines_flatten (cs : List Char) : (readlines cs).flatten = cs := by
  simpa using readlinesAux_flatten cs []

theorem readlinesAux_cons (acc : List Char) (c : Char) (cs : List Char) :
    readlinesAux acc (c :: cs) =
      if c = '\n' then (acc.reverse ++ [('\n' : Char)]) :: readlinesAux [] cs
      else readlinesAux (c :: acc) cs := rfl

theorem readlinesAux_append (b : List Char) :
    ∀ (a : List Char), endsNl a = true → ∀ (acc : List Char),
      readlinesAux acc (a ++ b) = readlinesAux acc a ++ readlinesAux [] b := by
  intro a
  induction a with
  | nil => intro h; exact absurd h (by simp [endsNl])
  | cons c t ih =>
    intro h acc
    cases t with
    | nil =>
      have hc : c = '\n' := by simpa [endsNl] using h
      subst hc
      rw [List.cons_append, readlinesAux_cons, readlinesAux_cons, if_pos rfl, if_pos rfl]
      simp [readlinesAux]
    | cons c2 rest =>
      have h2 : endsNl (c2 :: rest) = true := by simpa [endsNl] using h
      by_cases hc : c = '\n'
      · subst hc
        rw [List.cons_append, readlinesAux_cons, readlinesAux_cons, if_pos rfl, if_pos rfl,
          ih h2 []]
        simp
      · rw [List.cons_append, readlinesAux_cons, readlinesAux_cons, if_neg hc, if_neg hc,
          ih h2 (c :: acc)]

theorem readlinesAux_single :
    ∀ (cs : List Char), (∀ c ∈ cs, c ≠ '\n') →
      ∀ acc, readlinesAux acc (cs ++ [('\n' : Char)]) = [acc.reverse ++ (cs ++ ['\n'])] := by
  intro cs
  induction cs with
  | nil => intro _ acc; simp [readlinesAux]
  | cons c t ih =>
    intro h acc
    have hc : c ≠ '\n' := h c (by simp)
    have ht := ih (fun x hx => h x (by simp [hx])) (c :: acc)
    rw [List.cons_append, readlinesAux_cons, if_neg hc, ht]
    simp

theorem endsNl_append_newline : ∀ (x : List Char), endsNl (x ++ [('\n' : Char)]) = true := by
  intro x
  induction x with
  | nil => decide
  | cons c t ih =>
    cases t with
    | nil => simp [endsNl]
    | cons c2 r =>
      rw [List.cons_append]
      exact ih

theorem pairStr_no_newline (song artist : List Char)
    (hs : ('\n' : Char) ∉ song) (ha : ('\n' : Char) ∉ artist) :
    ∀ c ∈ pairStr song artist, c ≠ '\n' := by
  intro c hc
  rcases List.mem_append.mp hc with hc1 | hc1
  · rcases List.mem_append.mp hc1 with hc2 | hc2
    · exact fun e => hs (e ▸ hc2)
    · intro e
      subst e
      revert hc2
      decide
  · exact fun e => ha (e ▸ hc1)

theorem readlines_pairLine (song artist : List Char)
    (hs : ('\n' : Char) ∉ song) (ha : ('\n' : Char) ∉ artist) :
    readlines (pairLine song artist) = [pairLine song artist] := by
  have := readlinesAux_single (pairStr song artist)
    (pairStr_no_newline song artist hs ha) []
  simpa [readlines, pairLine] using this

theorem readlines_flatten_replicate (L : List Char) (hend : endsNl L = true)
    (hone : readlines L = [L]) :
    ∀ N, readlines ((List.replicate N L).flatten) = List.replicate N L := by
  intro N
  induction N with
  | zero => simp [readlines, readlinesAux]
  | succ n ih =>
    rw [List.replicate_succ, List.flatten_cons]
    unfold readlines at *
    rw [readlinesAux_append _ L hend [], hone, ih]
    rfl

theorem filter_replicate_ne (L : List Char) (N : Nat) :
    (List.replicate N L).filter (fun l => l ≠ L) = [] := by
  induction N with
  | zero => rfl
  | succ n ih => simp [List.replicate_succ, List.filter_cons, ih]

theorem countP_replicate_eq (L : List Char) (N : Nat) :
    (List.replicate N L).countP (fun l => l = L) = N := by
  induction N with
  | zero => rfl
  | succ n ih => simp [List.replicate_succ, List.countP_cons, ih]

theorem isPrefixOf_append_self : ∀ (s b : List Char), s.isPrefixOf (s ++ b) = true := by
  intro s b
  induction s with
  | nil => simp [List.isPrefixOf]
  | cons c t ih => simp [List.isPrefixOf, ih]

theorem strContains_append_self : ∀ (a s b : List Char), strContains s (a ++ (s ++ b)) = true := by
  intro a s b
  induction a with
  | nil =>
    cases s with
    | nil =>
      cases b with
      | nil => decide
      | cons c t => simp [strContains, List.isPrefixOf]
    | cons c t =>
      simp [strContains, isPrefixOf_append_self]
  | cons c t ih => simp [strContains, ih]

theorem mismatchGo_eq (m : Nat) (ft : List Char) :
    ∀ (ws : List (List Char)) (e : Nat), e ≤ m →
      (mismatchGo m ft ws e = true ↔
        m < e + ws.countP (fun w => !(strContains (pyLower w) (pyLower ft)))) := by
  intro ws
  induction ws with
  | nil =>
    intro e he
    simp only [mismatchGo, List.countP_nil, Nat.add_zero, Bool.false_eq_true, false_iff]
    omega
  | cons w ws ih =>
    intro e he
    by_cases hw : strContains (pyLower w) (pyLower ft) = true
    · have hcnt : (w :: ws).countP (fun x => !(strContains (pyLower x) (pyLower ft)))
          = ws.countP (fun x => !(strContains (pyLower x) (pyLower ft))) := by
        simp [List.countP_cons, hw]
      rw [mismatchGo, if_pos hw, ih e he, hcnt]
    · have hw' : strContains (pyLower w) (pyLower ft) = false :=
        Bool.eq_false_iff.mpr hw
      have hcnt : (w :: ws).countP (fun x => !(strContains (pyLower x) (pyLower ft)))
          = ws.countP (fun x => !(strContains (pyLower x) (pyLower ft))) + 1 := by
        simp [List.countP_cons, hw']
      by_cases hcase : e + 1 > m
      · rw [mismatchGo, if_neg hw, if_pos hcase, hcnt]
        simp only [true_iff]
        omega
      · rw [mismatchGo, if_neg hw, if_neg hcase, ih (e + 1) (by omega), hcnt]
        omega

/-- C4: for every query title (the `f'\x7bsong\x7d by \x7bartist\x7d'` text, stripped of
punctuation) with `n` whitespace-separated words, `genius_stripper` sets
`max_err = n / 2`; `is_title_mismatched` rejects every candidate title in
which more than `max_err` query words fail case-insensitive substring
containment, and accepts every candidate containing all query words,
whatever its extra words or ordering. -/
theorem c4_title_matcher (song artist rawTitle : List Char) :
    genius_max_err song artist = (genius_words song artist).length / 2 ∧
    ((genius_words song artist).countP
        (fun w => !(strContains (pyLower w) (pyLower (stripNonAlnum rawTitle)))) >
        genius_max_err song artist →
      is_title_mismatched (genius_words song artist) (stripNonAlnum rawTitle)
        (genius_max_err song artist) = true) ∧
    ((∀ w ∈ genius_words song artist,
        strContains (pyLower w) (pyLower (stripNonAlnum rawTitle)) = true) →
      is_title_mismatched (genius_words song artist) (stripNonAlnum rawTitle)
        (genius_max_err song artist) = false) := by
  refine ⟨rfl, ?_, ?_⟩
  · intro h
    exact (mismatchGo_eq (genius_max_err song artist) (stripNonAlnum rawTitle)
      (genius_words song artist) 0 (Nat.zero_le _)).mpr (by omega)
  · intro h
    have hc : (genius_words song artist).countP
        (fun w => !(strContains (pyLower w) (pyLower (stripNonAlnum rawTitle)))) = 0 := by
      refine List.countP_eq_zero.mpr ?_
      intro w hw
      simp [h w hw]
    have hiff := mismatchGo_eq (genius_max_err song artist) (stripNonAlnum rawTitle)
      (genius_words song artist) 0 (Nat.zero_le _)
    rw [hc] at hiff
    refine Bool.eq_false_iff.mpr (fun ht => ?_)
    have := hiff.mp ht
    omega

/-- Witness for C4 at concrete inputs: the candidate "Hello by Adele Live"
contains every query word of "Hello by Adele" and is accepted; the candidate
"zzz" misses more than half and is rejected. -/
theorem c4_title_matcher_witness :
    is_title_mismatched (genius_words ("Hello").data ("Adele").data)
      (stripNonAlnum ("Hello by Adele Live").data)
      (genius_max_err ("Hello").data ("Adele").data) = false ∧
    is_title_mismatched (genius_words ("Hello").data ("Adele").data)
      (stripNonAlnum ("zzz").data)
      (genius_max_err ("Hello").data ("Adele").data) = true := by
  refine ⟨(c4_title_matcher ("Hello").data ("Adele").data
      ("Hello by Adele Live").data).2.2 ?_,
    (c4_title_matcher ("Hello").data ("Adele").data ("zzz").data).2.1 ?_⟩
  · decide
  · decide

/-- C6: for each provider, the cached token is returned unchanged, with no
refresh round-trip, whenever `now < expiresAt - margin` (180 s for the
GitHub installation provider, 300 s for the Spotify client-credentials
provider); otherwise the refresh overwrites token and expiry and returns the
new token, the GitHub expiry coming from parsing the provider-supplied
ISO-8601 `expires_at` and the Spotify expiry being fixed at exactly one hour
past the refresh instant. -/
theorem c6_token_cache (now : Int) (ghTok ghRespTok isoStr spTok spRespTok : List Char)
    (ghExp spExp e : Int) :
    (now < ghExp - 180 →
      get_github_token now ghTok ghExp ghRespTok isoStr =
        ⟨some ghTok, ghTok, ghExp, false⟩) ∧
    (¬ now < ghExp - 180 → strptimeIsoZ isoStr = some e →
      get_github_token now ghTok ghExp ghRespTok isoStr =
        ⟨some ghRespTok, ghRespTok, e, true⟩) ∧
    (now < spExp - 300 →
      get_spotify_token now spTok spExp spRespTok = ⟨spTok, spTok, spExp, false⟩) ∧
    (¬ now < spExp - 300 →
      get_spotify_token now spTok spExp spRespTok =
        ⟨spRespTok, spRespTok, now + 3600, true⟩) := by
  refine ⟨?_, ?_, ?_, ?_⟩
  · intro h
    rw [get_github_token, if_pos h]
  · intro h hp
    rw [get_github_token, if_neg h, hp]
  · intro h
    rw [get_spotify_token, if_pos h]
  · intro h
    rw [get_spotify_token, if_neg h]

/-- Witness for C6: a fresh GitHub token is served from cache at `now = 0`
with expiry 10000; a stale one (expiry 0) is refreshed to the timestamp
parsed from "2024-01-01T01:00:00Z" (1704070800); the Spotify cases likewise,
the stale one expiring exactly at `now + 3600`. -/
theorem c6_token_cache_witness :
    get_github_token 0 (("G").data) 10000 (("G2").data) (("2024-01-01T01:00:00Z").data) =
      ⟨some (("G").data), ("G").data, 10000, false⟩ ∧
    get_github_token 0 (("G").data) 0 (("G2").data) (("2024-01-01T01:00:00Z").data) =
      ⟨some (("G2").data), ("G2").data, 1704070800, true⟩ ∧
    get_spotify_token 0 (("S").data) 10000 (("S2").data) =
      ⟨("S").data, ("S").data, 10000, false⟩ ∧
    get_spotify_token 0 (("S").data) 0 (("S2").data) =
      ⟨("S2").data, ("S2").data, 3600, true⟩ := by
  refine ⟨(c6_token_cache 0 (("G").data) (("G2").data) (("2024-01-01T01:00:00Z").data)
      (("S").data) (("S2").data) 10000 10000 1704070800).1 (by decide),
    (c6_token_cache 0 (("G").data) (("G2").data) (("2024-01-01T01:00:00Z").data)
      (("S").data) (("S2").data) 0 0 1704070800).2.1 (by decide) (by decide),
    (c6_token_cache 0 (("G").data) (("G2").data) (("2024-01-01T01:00:00Z").data)
      (("S").data) (("S2").data) 10000 10000 1704070800).2.2.1 (by decide),
    (c6_token_cache 0 (("G").data) (("G2").data) (("2024-01-01T01:00:00Z").data)
      (("S").data) (("S2").data) 0 0 1704070800).2.2.2 (by decide)⟩

/-- C7: a client version strictly below the floor "1.1.1" (Python string
comparison) makes the `/unsupported` route return the update prompt with the
ledger untouched and no issue-creation call, for every song and artist. -/
theorem c7_below_floor (song artist version store : List Char) (legit : Bool)
    (resp : IssueResponse) (h : pyStrLt version floorVersion = true) :
    update song artist version store legit resp =
      ⟨some Outcome.updatePrompt, store, false⟩ := by
  rw [update, if_pos h]

/-- Witness for C7 at version "1.0.0" on a sample ledger. -/
theorem c7_below_floor_witness :
    update (("abc").data) (("def").data) (("1.0.0").data) (("q by r\n").data) true
      ⟨201, some (("L").data)⟩ =
      ⟨some Outcome.updatePrompt, ("q by r\n").data, false⟩ :=
  c7_below_floor (("abc").data) (("def").data) (("1.0.0").data) (("q by r\n").data) true
    ⟨201, some (("L").data)⟩ (by decide)

/-- C8: once a request passes the version gate, a pair the ledger already
contains yields the "already tracked" response, the ledger is not appended
to again and no second issue-creation call is made — so at most one tracking
issue is ever filed per pair. -/
theorem c8_already_tracked (song artist version store : List Char) (legit : Bool)
    (resp : IssueResponse) (hv : pyStrLt version floorVersion = false)
    (hc : ledger_contains store song artist = true) :
    update song artist version store legit resp =
      ⟨some Outcome.alreadyExists, store, false⟩ := by
  rw [update, if_neg (by simp [hv]), if_pos hc]

/-- Witness for C8: the pair ("q1", "r") is already on the ledger. -/
theorem c8_already_tracked_witness :
    update (("q1").data) (("r").data) (("1.1.1").data) (("q1 by r\n").data) true
      ⟨201, some (("L").data)⟩ =
      ⟨some Outcome.alreadyExists, ("q1 by r\n").data, false⟩ :=
  c8_already_tracked (("q1").data) (("r").data) (("1.1.1").data) (("q1 by r\n").data) true
    ⟨201, some (("L").data)⟩ (by decide) (by decide)

/-- C10: ledger membership is a substring test against the whole store, not
a whole-line test: the never-appended pair ("b", "c") is reported present in
the store "ab by cd\n" (its formatted text occurs inside that line, which is
not the pair's line), and after `del_line` removes every line exactly equal
to "x by y\n", the membership test for ("x", "y") still returns true because
"x by y" occurs inside the surviving line "ax by yb\n". -/
theorem c10_substring_membership :
    ledger_contains (("ab by cd\n").data) (("b").data) (("c").data) = true ∧
    pairLine (("b").data) (("c").data) ∉ readlines (("ab by cd\n").data) ∧
    del_line (("x by y\nax by yb\n").data) (("x").data) (("y").data) =
      ((("ax by yb\n").data), 1) ∧
    ledger_contains
      (del_line (("x by y\nax by yb\n").data) (("x").data) (("y").data)).1
      (("x").data) (("y").data) = true := by
  refine ⟨by decide, by decide, by decide, by decide⟩

/-- C5: starting from a store that ends on a line boundary and holds no line
equal to the pair's formatted line, after N appends of the same (song,
artist) pair `del_line` removes all N matching lines and returns N; the dump
taken after the removal does not contain the removed pair's line; and an
append followed immediately by the membership test returns true. -/
theorem c5_ledger_append_remove (store0 song artist : List Char) (N : Nat)
    (hs : ('\n' : Char) ∉ song) (ha : ('\n' : Char) ∉ artist)
    (hend : store0 = [] ∨ endsNl store0 = true)
    (hmem : pairLine song artist ∉ readlines store0) :
    del_line (store0 ++ (List.replicate N (pairLine song artist)).flatten) song artist
        = (store0, N) ∧
    pairLine song artist ∉
      readlines (del_line (store0 ++ (List.replicate N (pairLine song artist)).flatten)
        song artist).1 ∧
    ledger_contains (store0 ++ pairLine song artist) song artist = true := by
  have hone : readlines (pairLine song artist) = [pairLine song artist] :=
    readlines_pairLine song artist hs ha
  have hnl : endsNl (pairLine song artist) = true := endsNl_append_newline _
  have hrep : ∀ M, readlines ((List.replicate M (pairLine song artist)).flatten)
      = List.replicate M (pairLine song artist) :=
    readlines_flatten_replicate _ hnl hone
  have hlines : readlines (store0 ++ (List.replicate N (pairLine song artist)).flatten)
      = readlines store0 ++ List.replicate N (pairLine song artist) := by
    rcases hend with h0 | h0
    · subst h0
      rw [List.nil_append, hrep N]
      rfl
    · have h1 : readlines (store0 ++ (List.replicate N (pairLine song artist)).flatten)
          = readlines store0 ++
            readlines ((List.replicate N (pairLine song artist)).flatten) :=
        readlinesAux_append _ store0 h0 []
      rw [h1, hrep N]
  have hfil : (readlines store0).filter (fun l => l ≠ pairLine song artist)
      = readlines store0 := by
    refine List.filter_eq_self.mpr ?_
    intro a hal
    simpa using fun (e : a = pairLine song artist) => hmem (e ▸ hal)
  have hcnt0 : (readlines store0).countP (fun l => l = pairLine song artist) = 0 := by
    refine List.countP_eq_zero.mpr ?_
    intro a hal
    simpa using fun (e : a = pairLine song artist) => hmem (e ▸ hal)
  have hdel : del_line (store0 ++ (List.replicate N (pairLine song artist)).flatten)
      song artist = (store0, N) := by
    simp only [del_line, hlines, List.filter_append, List.countP_append, hfil,
      filter_replicate_ne, hcnt0, countP_replicate_eq, List.append_nil, Nat.zero_add,
      readlines_flatten]
  refine ⟨hdel, ?_, ?_⟩
  · rw [hdel]
    exact hmem
  · have := strContains_append_self store0 (pairStr song artist) [('\n' : Char)]
    simpa [ledger_contains, pairLine, List.append_assoc] using this

/-- Witness for C5: two appends of ("a", "b") onto the store "x by y\n",
then removal, restores the store and reports 2. -/
theorem c5_ledger_append_remove_witness :
    del_line ((("x by y\n").data) ++
        (List.replicate 2 (pairLine (("a").data) (("b").data))).flatten)
        (("a").data) (("b").data) = ((("x by y\n").data), 2) ∧
    pairLine (("a").data) (("b").data) ∉
      readlines (del_line ((("x by y\n").data) ++
        (List.replicate 2 (pairLine (("a").data) (("b").data))).flatten)
        (("a").data) (("b").data)).1 ∧
    ledger_contains ((("x by y\n").data) ++ pairLine (("a").data) (("b").data))
      (("a").data) (("b").data) = true :=
  c5_ledger_append_remove (("x by y\n").data) (("a").data) (("b").data) 2
    (by decide) (by decide) (Or.inr (by decide)) (by decide)

/-- C1 (code bug): when the issue-creation POST fails, GitHub's error body
carries no `html_url`, so `create_issue` raises `KeyError` at
`r.json()['html_url']` and the exception escapes the `/unsupported` route
(`outcome = none`) instead of the softer "logged internally" response; the
ledger write is indeed not rolled back.  The second conjunct shows the
intended "logged internally" branch is reached only if a non-201 response
nevertheless carried an `html_url` field, which GitHub error responses do
not. -/
theorem c1_issue_failure_behavior :
    update (("Song2").data) (("Artist").data) (("1.1.1").data) [] true ⟨422, none⟩ =
      ⟨none, pairLine (("Song2").data) (("Artist").data), true⟩ ∧
    update (("Song2").data) (("Artist").data) (("1.1.1").data) [] true
        ⟨422, some (("L").data)⟩ =
      ⟨some Outcome.loggedInternally, pairLine (("Song2").data) (("Artist").data), true⟩ := by
  refine ⟨by decide, by decide⟩

/-- C2 counterexample: the claimed run `resolveUnsupported("Test Song",
"Test Artist", "1.1.1")` never reaches the legitimacy check: both inputs
consist solely of letters and spaces, so the route answers "may not exist",
appends nothing and attempts no issue creation, even with the track provider
oracle set to confirm an exact match. -/
theorem c2_counterexample :
    update (("Test Song").data) (("Test Artist").data) (("1.1.1").data) [] true
      ⟨201, some (("L").data)⟩ = ⟨some Outcome.mayNotExist, [], false⟩ := by decide

/-- C2 (amended): for the input song "Test Song 1" (containing a digit, so
the spurious-input heuristic does not trigger), artist "Test Artist",
version "1.1.1", when the track provider confirms an exact match and the
ledger has no prior entry for the pair, the route appends exactly the one
line "Test Song 1 by Test Artist\n" and attempts an issue-creation call. -/
theorem c2_append_and_attempt (store : List Char) (resp : IssueResponse)
    (h : ledger_contains store (("Test Song 1").data) (("Test Artist").data) = false) :
    ∃ outc,
      update (("Test Song 1").data) (("Test Artist").data) (("1.1.1").data) store true resp
        = ⟨outc, store ++ pairLine (("Test Song 1").data) (("Test Artist").data), true⟩ := by
  obtain ⟨code, url⟩ := resp
  rw [update, if_neg (by decide), if_neg (by simp [h]), if_neg (by decide), if_pos rfl]
  cases url with
  | none => exact ⟨none, rfl⟩
  | some link =>
    by_cases hc : code = 201
    · exact ⟨some (Outcome.issueCreated link), by simp [create_issue, hc]⟩
    · exact ⟨some Outcome.loggedInternally, by simp [create_issue, hc]⟩

/-- Witness for amended C2 on the empty store with a 201 response. -/
theorem c2_append_and_attempt_witness :
    ∃ outc,
      update (("Test Song 1").data) (("Test Artist").data) (("1.1.1").data) [] true
        ⟨201, some (("L").data)⟩
        = ⟨outc, [] ++ pairLine (("Test Song 1").data) (("Test Artist").data), true⟩ :=
  c2_append_and_attempt [] ⟨201, some (("L").data)⟩ (by decide)

/-- C3 counterexample: a closed issues event with the right label and
repository but the non-matching title "irrelevant" makes the handler raise
(`wdt.match` is `None` and `.group(1)` raises `AttributeError`) instead of
returning the "not relevant" response; the store is untouched. -/
theorem c3_counterexample :
    github_webhook (("issues").data) [("unsupported song").data]
      (("SwagLyrics-For-Spotify").data) (("closed").data) (("irrelevant").data)
      (("a by b\n").data) = (WebhookOutcome.exn, ("a by b\n").data) := by decide

/-- C3 (amended): for every issues event with action closed, first label
"unsupported song" and the expected repository whose title does not match
the `wdt` pattern, the handler performs no ledger removal, but an uncaught
`AttributeError` escapes rather than the "not relevant" response being
returned. -/
theorem c3_malformed_title (restLabels : List (List Char)) (title store : List Char)
    (h : wdtMatch title = none) :
    github_webhook (("issues").data) ((("unsupported song").data) :: restLabels)
      (("SwagLyrics-For-Spotify").data) (("closed").data) title store =
      (WebhookOutcome.exn, store) := by
  simp [github_webhook, h]

/-- Witness for amended C3 with the unmatched title "no pattern here". -/
theorem c3_malformed_title_witness :
    github_webhook (("issues").data) [("unsupported song").data]
      (("SwagLyrics-For-Spotify").data) (("closed").data) (("no pattern here").data) [] =
      (WebhookOutcome.exn, []) :=
  c3_malformed_title [] (("no pattern here").data) [] (by decide)

theorem sp_run_fresh_inv (now : Int) (resp tok : List Char) (ex : Int) (cnt : Nat)
    (hfresh : ex - 300 > now) :
    ∀ (sched : List Bool) (p0 p1 : SpPC), p0 ≠ SpPC.refreshing → p1 ≠ SpPC.refreshing →
      (sp_run now resp sched (p0, p1, ⟨tok, ex, cnt⟩)).2.2 = ⟨tok, ex, cnt⟩ := by
  intro sched
  induction sched with
  | nil => intro p0 p1 _ _; rfl
  | cons i rest ih =>
    intro p0 p1 h0 h1
    cases i
    · cases p0 with
      | refreshing => exact absurd rfl h0
      | start =>
        have hstep : sp_thread_step now resp SpPC.start ⟨tok, ex, cnt⟩
            = (SpPC.done, ⟨tok, ex, cnt⟩) := by simp [sp_thread_step, hfresh]
        simp only [sp_run, hstep]
        exact ih SpPC.done p1 (by intro hx; cases hx) h1
      | done =>
        have hstep : sp_thread_step now resp SpPC.done ⟨tok, ex, cnt⟩
            = (SpPC.done, ⟨tok, ex, cnt⟩) := rfl
        simp only [sp_run, hstep]
        exact ih SpPC.done p1 (by intro hx; cases hx) h1
    · cases p1 with
      | refreshing => exact absurd rfl h1
      | start =>
        have hstep : sp_thread_step now resp SpPC.start ⟨tok, ex, cnt⟩
            = (SpPC.done, ⟨tok, ex, cnt⟩) := by simp [sp_thread_step, hfresh]
        simp only [sp_run, hstep]
        exact ih p0 SpPC.done h0 (by intro hx; cases hx)
      | done =>
        have hstep : sp_thread_step now resp SpPC.done ⟨tok, ex, cnt⟩
            = (SpPC.done, ⟨tok, ex, cnt⟩) := rfl
        simp only [sp_run, hstep]
        exact ih p0 SpPC.done h0 (by intro hx; cases hx)

/-- C9 counterexample: the code takes no lock, so with a stale token two
concurrent `get_spotify_token` callers interleaved check–check–write–write
both fire the refresh POST: the refresh count is 2, not the claimed exactly
one. -/
theorem c9_counterexample :
    (sp_run 1000 (("T").data) [false, true, false, true]
      (SpPC.start, SpPC.start, ⟨("old").data, 0, 0⟩)).2.2.refreshCount = 2 := by decide

/-- C9 (amended): with the expiry beyond the safety margin, no interleaving
of two callers fires any refresh (the shared state is untouched); with a
stale token, concurrent callers MAY each fire their own refresh (the
check–check–write–write interleaving fires two), while fully serialized
callers fire exactly one. -/
theorem c9_refresh_races (now : Int) (tok resp : List Char) (ex : Int) (cnt : Nat)
    (hfresh : ex - 300 > now) :
    (∀ sched : List Bool,
      (sp_run now resp sched (SpPC.start, SpPC.start, ⟨tok, ex, cnt⟩)).2.2 =
        ⟨tok, ex, cnt⟩) ∧
    (sp_run 1000 (("T").data) [false, true, false, true]
      (SpPC.start, SpPC.start, ⟨("old").data, 0, 0⟩)).2.2.refreshCount = 2 ∧
    (sp_run 1000 (("T").data) [false, false, true, true]
      (SpPC.start, SpPC.start, ⟨("old").data, 0, 0⟩)).2.2.refreshCount = 1 := by
  refine ⟨fun sched => sp_run_fresh_inv now resp tok ex cnt hfresh sched SpPC.start SpPC.start
    (by intro hx; cases hx) (by intro hx; cases hx), by decide, by decide⟩

/-- Witness for amended C9: a fresh cache (expiry 10000 at now 0) is
untouched by the two-caller schedule thread1-then-thread0. -/
theorem c9_refresh_races_witness :
    (sp_run 0 (("T").data) [true, false]
      (SpPC.start, SpPC.start, ⟨("tok").data, 10000, 5⟩)).2.2 =
      ⟨("tok").data, 10000, 5⟩ :=
  (c9_refresh_races 0 (("tok").data) (("T").data) 10000 5 (by decide)).1 [true, false]

end IssueMaker
